import Mathlib

/-!
Verification of the Daybreak backend request pipeline (apps/backend/src/index.ts).

The backend exposes two routes on a Hono app: `GET /health` and
`GET /api/events`.  The events handler authenticates the caller via Clerk,
locates the linked Google OAuth account, exchanges it for an access token,
queries the Google Calendar API for the past month of events, and maps each
upstream item to a normalized shape.  This file is a shallow embedding of that
handler: external services (Clerk, Google) are modelled as inputs in an
environment record, each fallible call as an `Except` value, and the handler
as a pure function from the environment to an HTTP result together with the
trace of external calls it performed.
-/

namespace Daybreak

/-! ## ECMAScript date arithmetic

The handler computes the time window with
`const now = new Date(); const oneMonthAgo = new Date();
 oneMonthAgo.setMonth(now.getMonth() - 1)`.
We embed the ECMAScript `Date` semantics at day granularity: a civil date with
a zero-based month field, and `setMonth` per the ECMAScript `MakeDay`
operation (year adjusted by floor division of the month argument, day-of-month
kept and allowed to overflow into following months).  For a day-of-month of at
most 31 the overflow is at most 31 - 28 = 3 days, so a single roll step into
the next month realizes the normalization exactly.
-/

/-- A civil date as an ECMAScript `Date` exposes it: `month` is zero-based
(0 = January .. 11 = December), `day` is one-based. -/
structure JSDate where
  year : Int
  month : Nat
  day : Nat
deriving DecidableEq, Repr

/-- Gregorian leap-year rule, as used by ECMAScript `Date`. -/
def isLeapYear (y : Int) : Bool :=
  (y % 4 == 0 && y % 100 != 0) || y % 400 == 0

/-- Number of days in zero-based month `m` of year `y`. -/
def daysInMonth (y : Int) (m : Nat) : Nat :=
  match m with
  | 0 => 31
  | 1 => if isLeapYear y then 29 else 28
  | 2 => 31
  | 3 => 30
  | 4 => 31
  | 5 => 30
  | 6 => 31
  | 7 => 31
  | 8 => 30
  | 9 => 31
  | 10 => 30
  | _ => 31

/-- Normalize a (year, zero-based month, day) triple whose day may exceed the
month length by rolling the excess into the next month.  For day ≤ 31 one step
suffices (the excess is at most 3, below the length of any month), so this
equals the ECMAScript `MakeDay` normalization on the inputs `setMonth`
produces. -/
def rollDay (y : Int) (m : Nat) (d : Nat) : JSDate :=
  if d ≤ daysInMonth y m then ⟨y, m, d⟩
  else if m = 11 then ⟨y + 1, 0, d - daysInMonth y m⟩
  else ⟨y, m + 1, d - daysInMonth y m⟩

/-- ECMAScript `Date.prototype.setMonth`: the (possibly negative) month
argument `m` moves the year by `⌊m / 12⌋`, the month becomes `m mod 12`, and
the day-of-month is kept, overflowing per `MakeDay`. -/
def jsSetMonth (dt : JSDate) (m : Int) : JSDate :=
  rollDay (dt.year + Int.fdiv m 12) (Int.emod m 12).toNat dt.day

/-- The lower bound of the events window:
`oneMonthAgo.setMonth(now.getMonth() - 1)`. -/
def oneMonthAgoDate (d : JSDate) : JSDate :=
  jsSetMonth d ((d.month : Int) - 1)

/-- A date is valid when the month index and the day-of-month are in range. -/
def JSDate.Valid (d : JSDate) : Prop :=
  d.month ≤ 11 ∧ 1 ≤ d.day ∧ d.day ≤ daysInMonth d.year d.month

instance (d : JSDate) : Decidable d.Valid := by
  unfold JSDate.Valid; infer_instance

/-- Year of the calendar month preceding the month of `d`. -/
def prevYear (d : JSDate) : Int :=
  if d.month = 0 then d.year - 1 else d.year

/-- Zero-based index of the calendar month preceding the month of `d`. -/
def prevMonth (d : JSDate) : Nat :=
  if d.month = 0 then 11 else d.month - 1

/-- Modelled from the spec wording of the window claim: the lower bound `lo`
makes the window span exactly one calendar month ending at `now`, i.e. `lo`
is the same day-of-month in the immediately preceding calendar month. -/
def specPriorMonthLowerBound (now lo : JSDate) : Prop :=
  lo.year = prevYear now ∧ lo.month = prevMonth now ∧ lo.day = now.day

instance (a b : JSDate) : Decidable (specPriorMonthLowerBound a b) := by
  unfold specPriorMonthLowerBound; infer_instance

/-- An instant: a civil date plus the milliseconds elapsed in that day.
`setMonth` does not touch the time-of-day component. -/
structure Instant where
  date : JSDate
  msOfDay : Nat
deriving DecidableEq, Repr

/-- The window lower bound as an instant: month arithmetic on the date,
time-of-day preserved. -/
def oneMonthAgoInstant (i : Instant) : Instant :=
  ⟨oneMonthAgoDate i.date, i.msOfDay⟩

/-! ## ISO-8601 serialization (`Date.prototype.toISOString`) -/

/-- Two-digit zero-padded decimal. -/
def pad2 (n : Nat) : String :=
  if n < 10 then ("0") ++ toString n else toString n

/-- Three-digit zero-padded decimal. -/
def pad3 (n : Nat) : String :=
  if n < 10 then ("00") ++ toString n
  else if n < 100 then ("0") ++ toString n
  else toString n

/-- Four-digit zero-padded decimal year (ECMAScript uses this format for
years 0..9999, the range relevant to a running clock). -/
def pad4 (y : Int) : String :=
  let n := y.toNat
  (if n < 10 then ("000") else if n < 100 then ("00")
   else if n < 1000 then ("0") else "") ++ toString n

/-- ECMAScript `toISOString`: `YYYY-MM-DDTHH:mm:ss.sssZ` (UTC).  The month is
rendered one-based. -/
def toISOString (i : Instant) : String :=
  pad4 i.date.year ++ "-" ++ pad2 (i.date.month + 1) ++ "-" ++ pad2 i.date.day
    ++ "T" ++ pad2 (i.msOfDay / 3600000) ++ ":" ++ pad2 (i.msOfDay % 3600000 / 60000)
    ++ ":" ++ pad2 (i.msOfDay % 60000 / 1000) ++ "." ++ pad3 (i.msOfDay % 1000) ++ "Z"

/-! ## Data model of the events handler

Shapes follow the objects the handler reads: the Clerk auth context, the user
record with its external accounts, the OAuth token response, and the Google
Calendar list response.  Fields the upstream may omit are `Option`s. -/

/-- Result of `getAuth(c)` when an auth context exists: `userId` may still be
null/undefined. -/
structure Auth where
  userId : Option String
deriving DecidableEq, Repr

/-- JavaScript truthiness of `auth?.userId`: requires an auth object, a
present `userId`, and a non-empty string. -/
def authHasUser : Option Auth → Bool
  | none => false
  | some au =>
    match au.userId with
    | none => false
    | some s => s != ""

/-- A linked external account as returned inside the Clerk user record; only
the `provider` field is read by the handler. -/
structure ExternalAccount where
  provider : String
deriving DecidableEq, Repr

/-- The Clerk user record, as read by the handler. -/
structure User where
  externalAccounts : List ExternalAccount
deriving DecidableEq, Repr

/-- One entry of the OAuth token response collection. -/
structure TokenInfo where
  token : String
deriving DecidableEq, Repr

/-- Result of `getUserOauthAccessToken`: the `data` collection may be
missing. -/
structure TokenResponse where
  data : Option (List TokenInfo)
deriving DecidableEq, Repr

/-- The `start` object of an upstream calendar item. -/
structure EventStart where
  dateTime : Option String
  date : Option String
deriving DecidableEq, Repr

/-- An upstream calendar item; every field the mapping reads may be absent. -/
structure CalItem where
  id : Option String
  summary : Option String
  start : Option EventStart
  description : Option String
  location : Option String
deriving DecidableEq, Repr

/-- The payload of the calendar list response: `response.data.items` may be
absent. -/
structure CalListResponse where
  items : Option (List CalItem)
deriving DecidableEq, Repr

/-- The normalized event shape returned by the handler. -/
structure NormEvent where
  id : String
  name : String
  date : String
  description : String
  location : String
deriving DecidableEq, Repr

/-- A JavaScript thrown value as the catch block inspects it:
`instanceof Error` (with its message), `typeof === "object"`, presence of a
`response` property, and the value of `response?.data`. -/
structure JsThrown where
  isError : Bool
  message : String
  isObject : Bool
  hasResponse : Bool
  responseData : Option String
deriving DecidableEq, Repr

/-- JavaScript `x || fb` on an optional string: the fallback is taken when the
field is absent or the empty string (both are falsy). -/
def jsOrStr (o : Option String) (fb : String) : String :=
  match o with
  | some s => if s = "" then fb else s
  | none => fb

/-- The per-item mapping of the handler:
`{ id: event.id || "", name: event.summary || "Untitled Event",
   date: event.start?.dateTime || event.start?.date || "",
   description: event.description || "", location: event.location || "" }`. -/
def normalizeEvent (e : CalItem) : NormEvent :=
  { id := jsOrStr (e.id) ""
    name := jsOrStr (e.summary) "Untitled Event"
    date := jsOrStr (e.start.bind EventStart.dateTime)
      (jsOrStr (e.start.bind EventStart.date) "")
    description := jsOrStr (e.description) ""
    location := jsOrStr (e.location) "" }

/-- `user.externalAccounts.find((account) => account.provider === "oauth_google")`. -/
def findGoogleAccount (u : User) : Option ExternalAccount :=
  u.externalAccounts.find? (fun a => a.provider == "oauth_google")

/-- The `details` field of the 500 body:
`process.env.NODE_ENV === "development" ? (error && typeof error === "object"
 && "response" in error ? error.response?.data : undefined) : undefined`.
`NODE_ENV` is `none` when the variable is unset. -/
def jsDetails (nodeEnv : Option String) (e : JsThrown) : Option String :=
  if nodeEnv = some ("development") then
    if e.isObject && e.hasResponse then e.responseData else none
  else none

/-- Outcome of `GET /api/events`: a 200 JSON array, or an error body with an
HTTP status, category, message and optional details (an absent `details`
models the key dropped from the serialized JSON). -/
inductive EventsResult where
  | ok (events : List NormEvent)
  | err (status : Nat) (category : String) (message : String)
      (details : Option String)
deriving DecidableEq, Repr

/-- HTTP status of an events outcome (`c.json(events)` responds 200). -/
def EventsResult.httpStatus : EventsResult → Nat
  | .ok _ => 200
  | .err s _ _ _ => s

/-- The catch block of the handler: one 500 response with the fixed category,
the error message when the thrown value is an `Error`, and the gated
details. -/
def catchResponse (nodeEnv : Option String) (e : JsThrown) : EventsResult :=
  .err 500 "Failed to fetch calendar events"
    (if e.isError then e.message else ("Unknown error"))
    (jsDetails nodeEnv e)

/-- An external call performed by the handler, with the request data that the
handler chooses (access token and time window for the calendar call). -/
inductive ExtCall where
  | getUser
  | getToken
  | listEvents (accessToken : String) (timeMin : Instant) (timeMax : Instant)
deriving DecidableEq, Repr

/-- The environment of one request: the auth context, the outcome each
external call would produce (an `Except.error` models a thrown/rejected
call), the `NODE_ENV` variable, and the current instant. -/
structure Env where
  auth : Option Auth
  getUser : Except JsThrown User
  getToken : Except JsThrown TokenResponse
  listEvents : String → Instant → Instant → Except JsThrown CalListResponse
  nodeEnv : Option String
  now : Instant

/-- The `GET /api/events` handler: returns the HTTP outcome together with the
trace of external calls performed, in order.  Mirrors the source: auth guard,
then inside try/catch the user fetch, the account search, the token exchange
(first token of the collection), the calendar list over the one-month window,
and the item mapping with `?.map(...) || []`. -/
def apiEvents (env : Env) : EventsResult × List ExtCall :=
  if authHasUser env.auth = false then
    (.err 401 "Unauthorized" "You must be logged in to view events." none, [])
  else
    match env.getUser with
    | .error e => (catchResponse env.nodeEnv e, [.getUser])
    | .ok user =>
      match findGoogleAccount user with
      | none =>
        (.err 403 "Not Connected"
          "Please connect your Google account to view calendar events." none,
         [.getUser])
      | some _ =>
        match env.getToken with
        | .error e => (catchResponse env.nodeEnv e, [.getUser, .getToken])
        | .ok tr =>
          match tr.data with
          | none =>
            (.err 403 "No Token"
              "Unable to get Google access token. Please reconnect your Google account."
              none, [.getUser, .getToken])
          | some [] =>
            (.err 403 "No Token"
              "Unable to get Google access token. Please reconnect your Google account."
              none, [.getUser, .getToken])
          | some (t :: _) =>
            let timeMin := oneMonthAgoInstant env.now
            let timeMax := env.now
            match env.listEvents t.token timeMin timeMax with
            | .error e =>
              (catchResponse env.nodeEnv e,
               [.getUser, .getToken, .listEvents t.token timeMin timeMax])
            | .ok resp =>
              ((.ok ((resp.items.map (List.map normalizeEvent)).getD [])),
               [.getUser, .getToken, .listEvents t.token timeMin timeMax])

/-! ## The health route -/

/-- Body of the `GET /health` response. -/
structure HealthBody where
  status : String
  timestamp : String
deriving DecidableEq, Repr

/-- The `GET /health` handler:
`c.json({ status: "ok", timestamp: new Date().toISOString() })`, a 200
response.  The auth context is a parameter of the request but the handler
never reads it. -/
def healthHandler (_auth : Option Auth) (now : Instant) : Nat × HealthBody :=
  (200, ⟨"ok", toISOString now⟩)

/-! ## Helper lemmas -/

lemma rollDay_le (y : Int) (m d : Nat) (h : d ≤ daysInMonth y m) :
    rollDay y m d = ⟨y, m, d⟩ := by
  unfold rollDay
  rw [if_pos h]

lemma rollDay_gt (y : Int) (m d : Nat) (h : ¬ d ≤ daysInMonth y m)
    (hm : ¬ m = 11) : rollDay y m d = ⟨y, m + 1, d - daysInMonth y m⟩ := by
  unfold rollDay
  rw [if_neg h, if_neg hm]

lemma oneMonthAgoDate_zero (y : Int) (day : Nat) :
    oneMonthAgoDate ⟨y, 0, day⟩ = rollDay (y - 1) 11 day := by
  unfold oneMonthAgoDate jsSetMonth
  dsimp only
  norm_num
  congr 1

lemma oneMonthAgoDate_succ (y : Int) (m day : Nat) (h1 : 1 ≤ m) (h2 : m ≤ 11) :
    oneMonthAgoDate ⟨y, m, day⟩ = rollDay y (m - 1) day := by
  unfold oneMonthAgoDate jsSetMonth
  dsimp only
  have hfd : Int.fdiv ((m : Int) - 1) 12 = 0 := by interval_cases m <;> decide
  have hem : (Int.emod ((m : Int) - 1) 12).toNat = m - 1 := by
    interval_cases m <;> decide
  rw [hfd, hem, add_zero]

/-- Behavior of the month-subtraction lower bound on every valid date: the
result is always a valid date; when the calling day-of-month exists in the
prior month the result is that very day of the prior month; otherwise the day
rolls over into the calling month itself. -/
lemma oneMonthAgoDate_spec (d : JSDate) (hd : d.Valid) :
    (oneMonthAgoDate d).Valid
    ∧ (d.day ≤ daysInMonth (prevYear d) (prevMonth d) →
        specPriorMonthLowerBound d (oneMonthAgoDate d))
    ∧ (daysInMonth (prevYear d) (prevMonth d) < d.day →
        oneMonthAgoDate d
          = ⟨d.year, d.month, d.day - daysInMonth (prevYear d) (prevMonth d)⟩) := by
  obtain ⟨y, m, day⟩ := d
  obtain ⟨hm, hd1, hd2⟩ := hd
  dsimp only at hm hd1 hd2 ⊢
  rcases Nat.eq_zero_or_pos m with h0 | hpos
  · subst h0
    have h31 : day ≤ 31 := hd2
    rw [oneMonthAgoDate_zero, rollDay_le (y - 1) 11 day h31]
    refine ⟨⟨le_refl 11, hd1, h31⟩, fun _ => ⟨rfl, rfl, rfl⟩, fun hlt => ?_⟩
    exact absurd hlt (by simp [prevYear, prevMonth, daysInMonth]; omega)
  · have hpy : prevYear ⟨y, m, day⟩ = y := by
      simp only [prevYear]
      rw [if_neg (by omega)]
    have hpm : prevMonth ⟨y, m, day⟩ = m - 1 := by
      simp only [prevMonth]
      rw [if_neg (by omega)]
    rw [oneMonthAgoDate_succ y m day hpos hm, hpy, hpm]
    by_cases hc : day ≤ daysInMonth y (m - 1)
    · rw [rollDay_le y (m - 1) day hc]
      exact ⟨⟨by dsimp only; omega, hd1, hc⟩,
        fun _ => ⟨hpy.symm, hpm.symm, rfl⟩, fun hlt => absurd hc (by omega)⟩
    · rw [rollDay_gt y (m - 1) day hc (by omega)]
      have hmm : m - 1 + 1 = m := by omega
      rw [hmm]
      refine ⟨⟨hm, by dsimp only; omega, le_trans (Nat.sub_le day _) hd2⟩,
        fun hle => absurd hle hc, fun _ => rfl⟩

lemma find?_first {α : Type} (p : α → Bool) (pre post : List α) (a : α)
    (hpre : ∀ b ∈ pre, p b = false) (ha : p a = true) :
    (pre ++ a :: post).find? p = some a := by
  induction pre with
  | nil => rw [List.nil_append, List.find?_cons, ha]
  | cons b bs ih =>
    have hb := hpre b (by simp)
    rw [List.cons_append, List.find?_cons, hb]
    exact ih (fun x hx => hpre x (by simp [hx]))

/-- The handler reaches the catch block with thrown value `e` when one of the
three awaited external calls rejects: the user fetch, the token exchange
(after a linked Google account was found), or the calendar list call (after a
non-empty token collection was obtained). -/
def ThrowsAt (env : Env) (e : JsThrown) : Prop :=
  env.getUser = .error e
  ∨ (∃ user acc, env.getUser = .ok user ∧ findGoogleAccount user = some acc
      ∧ env.getToken = .error e)
  ∨ (∃ user acc tr t ts, env.getUser = .ok user
      ∧ findGoogleAccount user = some acc ∧ env.getToken = .ok tr
      ∧ tr.data = some (t :: ts)
      ∧ env.listEvents t.token (oneMonthAgoInstant env.now) env.now = .error e)

lemma apiEvents_throw (env : Env) (e : JsThrown)
    (hauth : authHasUser env.auth = true) (h : ThrowsAt env e) :
    (apiEvents env).1 = catchResponse env.nodeEnv e := by
  rcases h with h1 | ⟨user, acc, hu, ha, ht⟩ | ⟨user, acc, tr, t, ts, hu, ha, ht, hd, hl⟩
  · simp [apiEvents, hauth, h1]
  · simp [apiEvents, hauth, hu, ha, ht]
  · simp [apiEvents, hauth, hu, ha, ht, hd, hl]

/-- Claim C4: a request without a valid caller credential is answered with
exactly 401 `Unauthorized` and the log-in message, and the handler performs
zero external calls; the guard runs before any external call. -/
theorem apiEvents_unauthorized (env : Env)
    (h : authHasUser env.auth = false) :
    apiEvents env
      = (.err 401 "Unauthorized" "You must be logged in to view events." none,
         []) := by
  unfold apiEvents
  rw [if_pos h]

/-- Witness for claim C4 at a concrete environment with no auth context. -/
theorem apiEvents_unauthorized_witness :
    authHasUser (none : Option Auth) = false
    ∧ apiEvents
        { auth := none, getUser := .ok ⟨[]⟩, getToken := .ok ⟨none⟩,
          listEvents := fun _ _ _ => .ok ⟨none⟩, nodeEnv := none,
          now := ⟨⟨2025, 5, 1⟩, 0⟩ }
      = (.err 401 "Unauthorized" "You must be logged in to view events." none,
         []) :=
  ⟨rfl, apiEvents_unauthorized _ rfl⟩

/-- Claim C5: a valid caller whose user record has no linked account with
provider kind oauth_google is answered with exactly 403 `Not Connected`
(after the single user-fetch call); and the account search takes the first
match of the list, with no dedup logic. -/
theorem apiEvents_not_connected (env : Env) (user : User)
    (hauth : authHasUser env.auth = true)
    (huser : env.getUser = .ok user)
    (hnone : ∀ a ∈ user.externalAccounts, a.provider ≠ "oauth_google") :
    apiEvents env
      = (.err 403 "Not Connected"
          "Please connect your Google account to view calendar events." none,
         [.getUser])
    ∧ (∀ (pre post : List ExternalAccount) (a : ExternalAccount),
        (∀ b ∈ pre, b.provider ≠ "oauth_google") →
        a.provider = "oauth_google" →
        findGoogleAccount ⟨pre ++ a :: post⟩ = some a) := by
  constructor
  · have hfind : findGoogleAccount user = none := by
      unfold findGoogleAccount
      rw [List.find?_eq_none]
      intro a ha
      simp [hnone a ha]
    simp [apiEvents, hauth, huser, hfind]
  · intro pre post a hpre ha
    unfold findGoogleAccount
    exact find?_first _ pre post a
      (fun b hb => by simp [hpre b hb]) (by simp [ha])

/-- Witness for claim C5: a caller with only a github account gets 403, and
with a list holding two matches the first one is returned. -/
theorem apiEvents_not_connected_witness :
    apiEvents
        { auth := some ⟨some ("u_1")⟩, getUser := .ok ⟨[⟨"github"⟩]⟩,
          getToken := .ok ⟨none⟩, listEvents := fun _ _ _ => .ok ⟨none⟩,
          nodeEnv := none, now := ⟨⟨2025, 5, 1⟩, 0⟩ }
      = (.err 403 "Not Connected"
          "Please connect your Google account to view calendar events." none,
         [.getUser])
    ∧ findGoogleAccount ⟨[⟨"github"⟩, ⟨"oauth_google"⟩, ⟨"oauth_google"⟩]⟩
        = some ⟨"oauth_google"⟩ := by
  have h := apiEvents_not_connected
    { auth := some ⟨some ("u_1")⟩, getUser := .ok ⟨[⟨"github"⟩]⟩,
      getToken := .ok ⟨none⟩, listEvents := fun _ _ _ => .ok ⟨none⟩,
      nodeEnv := none, now := ⟨⟨2025, 5, 1⟩, 0⟩ }
    ⟨[⟨"github"⟩]⟩ rfl rfl (by decide)
  exact ⟨h.1, h.2 [⟨"github"⟩] [⟨"oauth_google"⟩] ⟨"oauth_google"⟩
    (by decide) rfl⟩

/-- Claim C6: for a valid caller with a linked Google account, a token
response with a missing or empty data collection is answered with exactly
403 `No Token`; when the collection is non-empty only its first token is
used for the calendar call and the rest are ignored. -/
theorem apiEvents_no_token (env : Env) (user : User) (acc : ExternalAccount)
    (tr : TokenResponse)
    (hauth : authHasUser env.auth = true)
    (huser : env.getUser = .ok user)
    (hacc : findGoogleAccount user = some acc)
    (htok : env.getToken = .ok tr) :
    ((tr.data = none ∨ tr.data = some []) →
      apiEvents env
        = (.err 403 "No Token"
            "Unable to get Google access token. Please reconnect your Google account."
            none, [.getUser, .getToken]))
    ∧ (∀ t ts, tr.data = some (t :: ts) →
        (apiEvents env).2
          = [.getUser, .getToken,
             .listEvents t.token (oneMonthAgoInstant env.now) env.now]) := by
  constructor
  · rintro (h | h) <;> simp [apiEvents, hauth, huser, hacc, htok, h]
  · intro t ts h
    cases hl : env.listEvents t.token (oneMonthAgoInstant env.now) env.now <;>
      simp [apiEvents, hauth, huser, hacc, htok, h, hl]

/-- Witness for claim C6 at a concrete environment whose token response has
an empty data collection. -/
theorem apiEvents_no_token_witness :
    apiEvents
        { auth := some ⟨some ("u_1")⟩,
          getUser := .ok ⟨[⟨"oauth_google"⟩]⟩,
          getToken := .ok ⟨some []⟩, listEvents := fun _ _ _ => .ok ⟨none⟩,
          nodeEnv := none, now := ⟨⟨2025, 5, 1⟩, 0⟩ }
      = (.err 403 "No Token"
          "Unable to get Google access token. Please reconnect your Google account."
          none, [.getUser, .getToken]) := by
  have h := apiEvents_no_token
    { auth := some ⟨some ("u_1")⟩,
      getUser := .ok ⟨[⟨"oauth_google"⟩]⟩,
      getToken := .ok ⟨some []⟩, listEvents := fun _ _ _ => .ok ⟨none⟩,
      nodeEnv := none, now := ⟨⟨2025, 5, 1⟩, 0⟩ }
    ⟨[⟨"oauth_google"⟩]⟩ ⟨"oauth_google"⟩ ⟨some []⟩ rfl rfl rfl rfl
  exact h.1 (Or.inr rfl)

/-- Claim C7: when the upstream calendar response carries no items field at
all, the handler answers 200 with an empty array rather than an error. -/
theorem apiEvents_items_absent (env : Env) (user : User)
    (acc : ExternalAccount) (tr : TokenResponse) (t : TokenInfo)
    (ts : List TokenInfo) (resp : CalListResponse)
    (hauth : authHasUser env.auth = true)
    (huser : env.getUser = .ok user)
    (hacc : findGoogleAccount user = some acc)
    (htok : env.getToken = .ok tr)
    (hdata : tr.data = some (t :: ts))
    (hlist : env.listEvents t.token (oneMonthAgoInstant env.now) env.now
      = .ok resp)
    (hitems : resp.items = none) :
    (apiEvents env).1 = .ok [] ∧ ((apiEvents env).1).httpStatus = 200 := by
  have h : (apiEvents env).1 = .ok [] := by
    simp [apiEvents, hauth, huser, hacc, htok, hdata, hlist, hitems]
  exact ⟨h, by rw [h]; rfl⟩

/-- Witness for claim C7 at a concrete environment whose calendar response
has no items field. -/
theorem apiEvents_items_absent_witness :
    (apiEvents
        { auth := some ⟨some ("u_1")⟩,
          getUser := .ok ⟨[⟨"oauth_google"⟩]⟩,
          getToken := .ok ⟨some [⟨"tok_1"⟩]⟩,
          listEvents := fun _ _ _ => .ok ⟨none⟩,
          nodeEnv := none, now := ⟨⟨2025, 5, 1⟩, 0⟩ }).1
      = .ok [] :=
  (apiEvents_items_absent
    { auth := some ⟨some ("u_1")⟩,
      getUser := .ok ⟨[⟨"oauth_google"⟩]⟩,
      getToken := .ok ⟨some [⟨"tok_1"⟩]⟩,
      listEvents := fun _ _ _ => .ok ⟨none⟩,
      nodeEnv := none, now := ⟨⟨2025, 5, 1⟩, 0⟩ }
    ⟨[⟨"oauth_google"⟩]⟩ ⟨"oauth_google"⟩ ⟨some [⟨"tok_1"⟩]⟩ ⟨"tok_1"⟩ []
    ⟨none⟩ rfl rfl rfl rfl rfl rfl rfl).1

/-- Claim C1: for a valid caller with a usable token and an upstream list
response of N items, the handler answers 200 with exactly the N normalized
events in upstream order, and the per-field fallbacks substitute an empty id,
the name Untitled Event, an empty date when both start fields are absent, and
empty description and location; no item is dropped. -/
theorem apiEvents_success_normalizes (env : Env) (user : User)
    (acc : ExternalAccount) (tr : TokenResponse) (t : TokenInfo)
    (ts : List TokenInfo) (resp : CalListResponse) (l : List CalItem)
    (hauth : authHasUser env.auth = true)
    (huser : env.getUser = .ok user)
    (hacc : findGoogleAccount user = some acc)
    (htok : env.getToken = .ok tr)
    (hdata : tr.data = some (t :: ts))
    (hlist : env.listEvents t.token (oneMonthAgoInstant env.now) env.now
      = .ok resp)
    (hitems : resp.items = some l)
    (_hlen : l.length ≤ 50) :
    (apiEvents env).1 = .ok (l.map normalizeEvent)
    ∧ ((apiEvents env).1).httpStatus = 200
    ∧ (l.map normalizeEvent).length = l.length
    ∧ (∀ i (hi : i < l.length),
        (l.map normalizeEvent).get ⟨i, by simpa using hi⟩
          = normalizeEvent (l.get ⟨i, hi⟩))
    ∧ (∀ e : CalItem, e.id = none → (normalizeEvent e).id = "")
    ∧ (∀ e : CalItem, e.summary = none →
        (normalizeEvent e).name = "Untitled Event")
    ∧ (∀ e : CalItem, e.start.bind EventStart.dateTime = none →
        e.start.bind EventStart.date = none → (normalizeEvent e).date = "")
    ∧ (∀ e : CalItem, e.description = none →
        (normalizeEvent e).description = "")
    ∧ (∀ e : CalItem, e.location = none →
        (normalizeEvent e).location = "") := by
  have h : (apiEvents env).1 = .ok (l.map normalizeEvent) := by
    simp [apiEvents, hauth, huser, hacc, htok, hdata, hlist, hitems]
  refine ⟨h, by rw [h]; rfl, by simp, ?_, ?_, ?_, ?_, ?_, ?_⟩
  · intro i hi
    simp [List.get_eq_getElem]
  · intro e he
    simp [normalizeEvent, jsOrStr, he]
  · intro e he
    simp [normalizeEvent, jsOrStr, he]
  · intro e h1 h2
    simp [normalizeEvent, jsOrStr, h1, h2]
  · intro e he
    simp [normalizeEvent, jsOrStr, he]
  · intro e he
    simp [normalizeEvent, jsOrStr, he]

/-- Witness for claim C1: a two-item upstream response (one fully populated
item, one with every field absent) maps to the two normalized events. -/
theorem apiEvents_success_normalizes_witness :
    (apiEvents
        { auth := some ⟨some ("u_1")⟩,
          getUser := .ok ⟨[⟨"oauth_google"⟩]⟩,
          getToken := .ok ⟨some [⟨"tok_1"⟩]⟩,
          listEvents := fun _ _ _ => .ok
            ⟨some [⟨some ("e1"), some ("Meet"),
                some ⟨some ("2025-06-01T10:00:00Z"), some ("2025-06-01")⟩,
                some ("d"), some ("l")⟩,
              ⟨none, none, none, none, none⟩]⟩,
          nodeEnv := none, now := ⟨⟨2025, 5, 1⟩, 0⟩ }).1
      = .ok [⟨"e1", "Meet", "2025-06-01T10:00:00Z", "d", "l"⟩,
          ⟨"", "Untitled Event", "", "", ""⟩] := by
  have h := apiEvents_success_normalizes
    { auth := some ⟨some ("u_1")⟩,
      getUser := .ok ⟨[⟨"oauth_google"⟩]⟩,
      getToken := .ok ⟨some [⟨"tok_1"⟩]⟩,
      listEvents := fun _ _ _ => .ok
        ⟨some [⟨some ("e1"), some ("Meet"),
            some ⟨some ("2025-06-01T10:00:00Z"), some ("2025-06-01")⟩,
            some ("d"), some ("l")⟩,
          ⟨none, none, none, none, none⟩]⟩,
      nodeEnv := none, now := ⟨⟨2025, 5, 1⟩, 0⟩ }
    ⟨[⟨"oauth_google"⟩]⟩ ⟨"oauth_google"⟩ ⟨some [⟨"tok_1"⟩]⟩ ⟨"tok_1"⟩ []
    ⟨some [⟨some ("e1"), some ("Meet"),
        some ⟨some ("2025-06-01T10:00:00Z"), some ("2025-06-01")⟩,
        some ("d"), some ("l")⟩,
      ⟨none, none, none, none, none⟩]⟩
    [⟨some ("e1"), some ("Meet"),
        some ⟨some ("2025-06-01T10:00:00Z"), some ("2025-06-01")⟩,
        some ("d"), some ("l")⟩,
      ⟨none, none, none, none, none⟩]
    rfl rfl rfl rfl rfl rfl rfl (by decide)
  rw [h.1]
  rfl

/-- Claim C2: every rejection in steps 2 to 6 produces exactly one 500
response with category `Failed to fetch calendar events`, whose message is
the error text of an `Error` and the fixed string otherwise; the details
field is attached only outside production mode and suppressed in it. -/
theorem apiEvents_error_category (env : Env) (e : JsThrown)
    (hauth : authHasUser env.auth = true) (h : ThrowsAt env e) :
    (apiEvents env).1
      = .err 500 "Failed to fetch calendar events"
          (if e.isError then e.message else ("Unknown error"))
          (jsDetails env.nodeEnv e)
    ∧ (env.nodeEnv = some ("production") → jsDetails env.nodeEnv e = none)
    ∧ (jsDetails env.nodeEnv e ≠ none →
        env.nodeEnv ≠ some ("production")) := by
  refine ⟨apiEvents_throw env e hauth h, ?_, ?_⟩
  · intro hp
    simp [jsDetails, hp]
  · intro hd hp
    exact hd (by simp [jsDetails, hp])

/-- Witness for claim C2: a rejected user fetch in production mode yields the
500 body with the error message and no details. -/
theorem apiEvents_error_category_witness :
    (apiEvents
        { auth := some ⟨some ("u_1")⟩,
          getUser := .error ⟨true, "boom", true, false, none⟩,
          getToken := .ok ⟨none⟩, listEvents := fun _ _ _ => .ok ⟨none⟩,
          nodeEnv := some ("production"), now := ⟨⟨2025, 5, 1⟩, 0⟩ }).1
      = .err 500 "Failed to fetch calendar events" "boom" none := by
  have h := apiEvents_error_category
    { auth := some ⟨some ("u_1")⟩,
      getUser := .error ⟨true, "boom", true, false, none⟩,
      getToken := .ok ⟨none⟩, listEvents := fun _ _ _ => .ok ⟨none⟩,
      nodeEnv := some ("production"), now := ⟨⟨2025, 5, 1⟩, 0⟩ }
    ⟨true, "boom", true, false, none⟩ rfl (Or.inl rfl)
  rw [h.1, h.2.1 rfl]
  rfl

/-- Claim C10: the 500 details field is gated on `NODE_ENV` being exactly the
string development (any other value, or the variable unset, suppresses it);
even in development it is absent when the thrown value has no response
property; and when present it equals the response data payload of the thrown
value. -/
theorem apiEvents_details_dev_gating (env : Env) (e : JsThrown)
    (hauth : authHasUser env.auth = true) (h : ThrowsAt env e) :
    (apiEvents env).1
      = .err 500 "Failed to fetch calendar events"
          (if e.isError then e.message else ("Unknown error"))
          (jsDetails env.nodeEnv e)
    ∧ (env.nodeEnv ≠ some ("development") → jsDetails env.nodeEnv e = none)
    ∧ ((e.isObject && e.hasResponse) = false → jsDetails env.nodeEnv e = none)
    ∧ (∀ p, jsDetails env.nodeEnv e = some p →
        env.nodeEnv = some ("development") ∧ e.responseData = some p) := by
  refine ⟨apiEvents_throw env e hauth h, ?_, ?_, ?_⟩
  · intro hne
    simp [jsDetails, hne]
  · intro hfalse
    simp [jsDetails, hfalse]
  · intro p hp
    by_cases hdev : env.nodeEnv = some ("development")
    · refine ⟨hdev, ?_⟩
      unfold jsDetails at hp
      rw [if_pos hdev] at hp
      cases hb : (e.isObject && e.hasResponse) with
      | true => rw [hb] at hp; simpa using hp
      | false => rw [hb] at hp; simp at hp
    · exfalso
      unfold jsDetails at hp
      rw [if_neg hdev] at hp
      simp at hp

/-- Witness for claim C10: a rejected calendar-ish error carrying a response
payload, in development mode, surfaces that payload as details. -/
theorem apiEvents_details_dev_gating_witness :
    (apiEvents
        { auth := some ⟨some ("u_1")⟩,
          getUser := .error ⟨true, "boom", true, true, some ("quota")⟩,
          getToken := .ok ⟨none⟩, listEvents := fun _ _ _ => .ok ⟨none⟩,
          nodeEnv := some ("development"), now := ⟨⟨2025, 5, 1⟩, 0⟩ }).1
      = .err 500 "Failed to fetch calendar events" "boom" (some ("quota")) := by
  have h := apiEvents_details_dev_gating
    { auth := some ⟨some ("u_1")⟩,
      getUser := .error ⟨true, "boom", true, true, some ("quota")⟩,
      getToken := .ok ⟨none⟩, listEvents := fun _ _ _ => .ok ⟨none⟩,
      nodeEnv := some ("development"), now := ⟨⟨2025, 5, 1⟩, 0⟩ }
    ⟨true, "boom", true, true, some ("quota")⟩ rfl (Or.inl rfl)
  rw [h.1]
  rfl

/-- Claim C8: the health route answers 200 with status ok and the ISO-8601
serialization of the current instant, and its result does not depend on any
auth context. -/
theorem healthHandler_spec (a₁ a₂ : Option Auth) (now : Instant) :
    healthHandler a₁ now = (200, ⟨"ok", toISOString now⟩)
    ∧ healthHandler a₁ now = healthHandler a₂ now :=
  ⟨rfl, rfl⟩

/-- Claim C9: a present non-empty `start.dateTime` takes precedence for the
normalized date field even when `start.date` is also present; `start.date` is
consulted only when `start.dateTime` is absent or empty (falsy). -/
theorem normalizeEvent_dateTime_precedence (e : CalItem) (st : EventStart)
    (hst : e.start = some st) :
    (∀ s, st.dateTime = some s → s ≠ "" → (normalizeEvent e).date = s)
    ∧ ((st.dateTime = none ∨ st.dateTime = some ("")) →
        (normalizeEvent e).date = jsOrStr (st.date) "") := by
  constructor
  · intro s hs hne
    simp [normalizeEvent, hst, hs, jsOrStr, hne]
  · rintro (h | h) <;> simp [normalizeEvent, hst, h, jsOrStr]

/-- Witness for claim C9: with both start fields present the dateTime value
wins. -/
theorem normalizeEvent_dateTime_precedence_witness :
    (normalizeEvent ⟨none, none,
        some ⟨some ("2025-06-01T10:00:00Z"), some ("2025-06-01")⟩,
        none, none⟩).date = "2025-06-01T10:00:00Z" :=
  (normalizeEvent_dateTime_precedence _
    ⟨some ("2025-06-01T10:00:00Z"), some ("2025-06-01")⟩ rfl).1
    _ rfl (by decide)

/-- Claim C3 counterexample: calling on March 31 2025, the month-subtraction
lower bound is March 3 2025 — a date in the same calling month, not in the
prior month — so the window does not span one calendar month and the lower
bound is not a prior-month date. -/
theorem oneMonthAgo_march31_counterexample :
    oneMonthAgoDate ⟨2025, 2, 31⟩ = ⟨2025, 2, 3⟩
    ∧ ¬ specPriorMonthLowerBound ⟨2025, 2, 31⟩ (oneMonthAgoDate ⟨2025, 2, 31⟩)
    ∧ (oneMonthAgoDate ⟨2025, 2, 31⟩).month = (2 : Nat) :=
  ⟨by decide, by decide, by decide⟩

/-- Claim C3 (amended): the window passed to the upstream list call ends at
the current instant and its lower bound subtracts one from the month field
with ECMAScript day roll-over; the computation never throws and on every
valid calling date yields a valid date.  When the calling day-of-month exists
in the prior month the window spans exactly one calendar month; on overflow
days (such as March 31) the excess rolls into the calling month itself, so
the lower bound is not always a prior-month date. -/
theorem apiEvents_window_amended (env : Env) (user : User)
    (acc : ExternalAccount) (tr : TokenResponse) (t : TokenInfo)
    (ts : List TokenInfo)
    (hauth : authHasUser env.auth = true)
    (huser : env.getUser = .ok user)
    (hacc : findGoogleAccount user = some acc)
    (htok : env.getToken = .ok tr)
    (hdata : tr.data = some (t :: ts))
    (hvalid : env.now.date.Valid) :
    (apiEvents env).2
      = [.getUser, .getToken,
         .listEvents t.token (oneMonthAgoInstant env.now) env.now]
    ∧ (oneMonthAgoDate env.now.date).Valid
    ∧ (env.now.date.day
          ≤ daysInMonth (prevYear env.now.date) (prevMonth env.now.date) →
        specPriorMonthLowerBound env.now.date (oneMonthAgoDate env.now.date))
    ∧ (daysInMonth (prevYear env.now.date) (prevMonth env.now.date)
          < env.now.date.day →
        oneMonthAgoDate env.now.date
          = ⟨env.now.date.year, env.now.date.month,
             env.now.date.day
               - daysInMonth (prevYear env.now.date) (prevMonth env.now.date)⟩) := by
  have hspec := oneMonthAgoDate_spec env.now.date hvalid
  refine ⟨?_, hspec.1, hspec.2.1, hspec.2.2⟩
  cases hl : env.listEvents t.token (oneMonthAgoInstant env.now) env.now <;>
    simp [apiEvents, hauth, huser, hacc, htok, hdata, hl]

/-- Witness for claim C3 (amended): calling on June 15 2025, the calendar
call receives the window from May 15 2025 to June 15 2025, a prior-month
lower bound. -/
theorem apiEvents_window_amended_witness :
    (apiEvents
        { auth := some ⟨some ("u_1")⟩,
          getUser := .ok ⟨[⟨"oauth_google"⟩]⟩,
          getToken := .ok ⟨some [⟨"tok_1"⟩]⟩,
          listEvents := fun _ _ _ => .ok ⟨none⟩,
          nodeEnv := none, now := ⟨⟨2025, 5, 15⟩, 0⟩ }).2
      = [.getUser, .getToken,
         .listEvents ("tok_1") ⟨⟨2025, 4, 15⟩, 0⟩ ⟨⟨2025, 5, 15⟩, 0⟩]
    ∧ specPriorMonthLowerBound ⟨2025, 5, 15⟩ (oneMonthAgoDate ⟨2025, 5, 15⟩) := by
  have h := apiEvents_window_amended
    { auth := some ⟨some ("u_1")⟩,
      getUser := .ok ⟨[⟨"oauth_google"⟩]⟩,
      getToken := .ok ⟨some [⟨"tok_1"⟩]⟩,
      listEvents := fun _ _ _ => .ok ⟨none⟩,
      nodeEnv := none, now := ⟨⟨2025, 5, 15⟩, 0⟩ }
    ⟨[⟨"oauth_google"⟩]⟩ ⟨"oauth_google"⟩ ⟨some [⟨"tok_1"⟩]⟩ ⟨"tok_1"⟩ []
    rfl rfl rfl rfl rfl (by decide)
  refine ⟨?_, h.2.2.1 (by decide)⟩
  rw [h.1]
  rfl

end Daybreak
